import Mathlib

set_option linter.unusedVariables false

/- Shallow embedding of the Info_overload scrapers.

   Each scraper module is embedded in its own namespace:
   - CT models src/clinical-trials-web-scraper.py (class ClinicalTrialsScraper)
   - CDC models src/cdc-web-scraper.py (class CDCScraper)
   - PM models src/pubmed-web-scraper.py (class MedicalInfoScraper)
   - NCBI models src/ncbi-medical-infromantion-web-scraper.py (class NCBIScraper)

   The network is modelled as an oracle mapping a URL (and optional query
   parameters) to an HTTP outcome; the body of a successful response is the
   parsed page (BeautifulSoup parsing is total on arbitrary input, so
   fetching and parsing are folded together). Each outbound requests.get
   call is recorded as a FetchCall carrying the timeout argument that the
   source passes at that call site (none when the source passes none).
   Exception handling in the source is modelled with Option: a caught
   exception branch becomes the none case. -/

abbrev Params := List (String × String)

/- An HTTP outcome: a response with a status code and a (parsed) body, or a
   transport-level failure (a requests.RequestException with no response). -/
inductive HttpResult (α : Type) where
  | response (status : Nat) (body : α)
  | transportError

/- One outbound requests.get call, with the timeout argument passed at the
   call site. -/
structure FetchCall where
  url : String
  params : Option Params
  timeout : Option Nat
  deriving DecidableEq

/- Element returned by find for an anchor tag: its text and its optional
   href attribute (subscript attribute access raises KeyError when the
   attribute is absent). -/
structure TitleElem where
  text : String
  href : Option String
  deriving DecidableEq

/- Model of urllib.parse.urljoin restricted to the shapes occurring here:
   the site-relative href is appended to the base URL. No claim depends on
   the exact join function. -/
def urljoin (base rel : String) : String := base ++ rel

namespace CT

/- Values stored in a trial record: flat strings, or the nested eligibility
   mapping. -/
inductive Value where
  | str (s : String)
  | dict (m : List (String × String))
  deriving DecidableEq

abbrev Record := List (String × Value)

/- One div.eligibility-criteria section: optional h3 title and optional
   div.criteria-content body. -/
structure EligSection where
  title : Option String
  content : Option String

/- One div.tr_results row of the search results page. -/
structure TrialRow where
  titleElem : Option TitleElem

/- A parsed page. find_all and select_one queries are total on any page,
   so one page type serves search pages and detail pages alike: trialRows
   models find_all on div.tr_results, selectOne models select_one
   (returning the matched element text), eligSections models find_all on
   div.eligibility-criteria. -/
structure Soup where
  trialRows : List TrialRow
  selectOne : String → Option String
  eligSections : List EligSection

abbrev Net := String → Option Params → HttpResult Soup

def base_url : String := "https://clinicaltrials.gov"

def search_url : String := base_url ++ "/ct2/results"

/- Search parameters built at lines 70-77: term and mode always, rslt only
   when a recruitment status is given. -/
def searchParams (condition : String) (recruitment_status : Option String) : Params :=
  [("term", condition), ("mode", "Advanced")] ++
    (match recruitment_status with
     | some s => [("rslt", s)]
     | none => [])

/- ClinicalTrialsScraper._get_html_content (lines 36-55): requests.get with
   timeout=10 and raise_for_status, catching RequestException and returning
   None. raise_for_status raises exactly for status codes 400-599. -/
def get_html_content (net : Net) (url : String) (params : Option Params) :
    Option Soup × List FetchCall :=
  (match net url params with
   | .response status body => if status < 400 then some body else none
   | .transportError => none,
   [⟨url, params, some 10⟩])

/- Python dict update semantics on an insertion-ordered association list:
   an existing key keeps its position and takes the new value, a new key is
   appended at the end. -/
def dictInsert (m : Record) (k : String) (v : Value) : Record :=
  if m.any (fun p => p.1 == k) then
    m.map (fun p => if p.1 == k then (k, v) else p)
  else m ++ [(k, v)]

/- Python dict-literal unpacking: start from a, insert the entries of b in
   order, later values overriding earlier ones. -/
def dictMerge (a b : Record) : Record :=
  b.foldl (fun acc p => dictInsert acc p.1 p.2) a

def strInsert (m : List (String × String)) (k v : String) : List (String × String) :=
  if m.any (fun p => p.1 == k) then
    m.map (fun p => if p.1 == k then (k, v) else p)
  else m ++ [(k, v)]

/- ClinicalTrialsScraper._extract_text (lines 160-169): select_one, then
   the trimmed element text, or the sentinel when nothing matches. -/
def extract_text (soup : Soup) (selector : String) : String :=
  match soup.selectOne selector with
  | some t => t.trim
  | none => "N/A"

/- ClinicalTrialsScraper._extract_eligibility_criteria (lines 171-194):
   sections with both a title and a content produce an entry keyed by the
   lower-cased title with spaces replaced by underscores. -/
def extract_eligibility_criteria (soup : Soup) : List (String × String) :=
  soup.eligSections.foldl (fun elig sec =>
    match sec.title, sec.content with
    | some t, some c => strInsert elig ((t.trim.toLower).replace " " "_") c.trim
    | _, _ => elig) []

def tenFlatFields : List String :=
  ["nct_number", "status", "condition", "sponsor", "brief_summary",
   "study_type", "study_phase", "primary_purpose", "start_date",
   "completion_date"]

/- ClinicalTrialsScraper._scrape_trial_details (lines 117-158): empty when
   the URL is the sentinel (no fetch) or when the fetch fails; otherwise
   the ten flat fields plus the nested eligibility mapping. The trace
   component records the requests.get calls performed. -/
def scrape_trial_details (net : Net) (trial_url : String) :
    Record × List FetchCall :=
  if trial_url = "N/A" then ([], [])
  else
    let fetched := get_html_content net trial_url none
    (match fetched.1 with
     | none => []
     | some soup =>
         [("nct_number", Value.str (extract_text soup "span#nct-id")),
          ("status", Value.str (extract_text soup "div.recruitment-status")),
          ("condition", Value.str (extract_text soup "span.condition-title")),
          ("sponsor", Value.str (extract_text soup "div.sponsor-name")),
          ("brief_summary", Value.str (extract_text soup "div.brief-summary")),
          ("study_type", Value.str (extract_text soup "div.study-type")),
          ("study_phase", Value.str (extract_text soup "div.study-phase")),
          ("primary_purpose", Value.str (extract_text soup "div.primary-purpose")),
          ("start_date", Value.str (extract_text soup "div.start-date")),
          ("completion_date", Value.str (extract_text soup "div.completion-date")),
          ("eligibility", Value.dict (extract_eligibility_criteria soup))],
     fetched.2)

/- Body of the per-row try block of search_clinical_trials (lines 91-113).
   A row without a title anchor yields sentinel title and URL (and no
   detail fetch); a title anchor without an href raises KeyError at line
   95, which the except at line 112 swallows, dropping the row; otherwise
   the detail record is merged into the base record by dict unpacking at
   lines 101-105. -/
def processRow (net : Net) (acc : List Record × List FetchCall) (row : TrialRow) :
    List Record × List FetchCall :=
  match row.titleElem with
  | none =>
      let details := scrape_trial_details net "N/A"
      (acc.1 ++ [dictMerge [("title", Value.str "N/A"), ("url", Value.str "N/A")] details.1],
       acc.2 ++ details.2)
  | some te =>
      match te.href with
      | none => acc
      | some h =>
          let turl := urljoin base_url h
          let details := scrape_trial_details net turl
          (acc.1 ++ [dictMerge [("title", Value.str te.text.trim), ("url", Value.str turl)] details.1],
           acc.2 ++ details.2)

/- ClinicalTrialsScraper.search_clinical_trials (lines 57-115): fetch the
   search page; an empty list on fetch failure; otherwise the rows are
   sliced to max_results at line 90 before each is processed (including its
   detail-page resolution). -/
def search_clinical_trials (net : Net) (condition : String) (max_results : Nat)
    (recruitment_status : Option String) : List Record × List FetchCall :=
  let fetched := get_html_content net search_url (some (searchParams condition recruitment_status))
  match fetched.1 with
  | none => ([], fetched.2)
  | some soup =>
      (soup.trialRows.take max_results).foldl (processRow net) ([], fetched.2)

/- ClinicalTrialsScraper.run_comprehensive_scrape (lines 244-275): extend
   the aggregate with each condition's results in order. The JSON and CSV
   file writes are external output sinks. -/
def run_comprehensive_scrape (net : Net) (conditions : List String)
    (max_results : Nat) (recruitment_status : Option String) :
    List Record × List FetchCall :=
  conditions.foldl (fun acc cond =>
    let res := search_clinical_trials net cond max_results recruitment_status
    (acc.1 ++ res.1, acc.2 ++ res.2))
    (([], []) : List Record × List FetchCall)

end CT

namespace CDC

structure DiseaseSection where
  h3 : Option String
  p : Option String
  deriving DecidableEq

structure Soup where
  diseaseSections : List DiseaseSection
  deriving DecidableEq

abbrev Record := List (String × String)

abbrev Net := String → HttpResult Soup

def base_url : String := "https://www.cdc.gov"

def diseases_url : String := base_url ++ "/diseases/index.html"

/- CDCScraper.selenium_advanced_scrape (lines 75-121): the rendered page is
   either a failure of the managed browser session (the except branch at
   lines 114-116, returning an empty DataFrame) or a list of rendered
   disease-item elements. find_element raises when the tag is absent, which
   the per-element except at lines 103-104 swallows, dropping that element.
   Selenium element text is not stripped in the source. -/
inductive DynEnv where
  | fail
  | elements (es : List DiseaseSection)

def selenium_advanced_scrape (dyn : DynEnv) : List Record :=
  match dyn with
  | .fail => []
  | .elements es =>
      es.filterMap (fun e =>
        match e.h3, e.p with
        | some n, some d => some [("name", n), ("description", d)]
        | _, _ => none)

/- The requests fallback inside CDCScraper.scrape_disease_data (lines
   41-73): requests.get with no timeout argument and no status check; the
   response body is parsed whatever the status code; a transport failure is
   the only raising operation, caught at line 71 (empty DataFrame). A
   section missing its h3 or its p produces no record (guard at line 55). -/
def scrape_static (net : Net) : List Record × List FetchCall :=
  match net diseases_url with
  | .transportError => ([], [⟨diseases_url, none, none⟩])
  | .response _ soup =>
      (soup.diseaseSections.filterMap (fun sec =>
         match sec.h3, sec.p with
         | some n, some d => some [("name", n.trim), ("description", d.trim)]
         | _, _ => none),
       [⟨diseases_url, none, none⟩])

/- CDCScraper.scrape_disease_data (lines 29-73): try the selenium path
   first; its result is used when the DataFrame is non-empty (it is never
   None), otherwise fall back to the requests path. -/
def scrape_disease_data (dyn : DynEnv) (net : Net) : List Record × List FetchCall :=
  let selenium_data := selenium_advanced_scrape dyn
  if selenium_data.isEmpty then scrape_static net else (selenium_data, [])

end CDC

namespace PM

structure Fragment where
  titleElem : Option TitleElem
  authorsElem : Option String
  journalElem : Option String
  deriving DecidableEq

structure Soup where
  fragments : List Fragment
  deriving DecidableEq

abbrev Record := List (String × String)

abbrev Net := String → HttpResult Soup

def base_url : String := "https://pubmed.ncbi.nlm.nih.gov/"

def search_url (search_term : String) (max_results : Nat) : String :=
  base_url ++ "?term=" ++ search_term ++ "&size=" ++ toString max_results

/- MedicalInfoScraper._get_html_content (lines 30-47): requests.get with
   timeout=10 and raise_for_status; RequestException is caught and None
   returned. -/
def get_html_content (net : Net) (url : String) : Option Soup × List FetchCall :=
  (match net url with
   | .response status body => if status < 400 then some body else none
   | .transportError => none,
   [⟨url, none, some 10⟩])

/- Body of the per-article try block of MedicalInfoScraper.scrape_pubmed
   (lines 68-79). Every operation in it is total: find returns None rather
   than raising on absence, and the href attribute access at line 77 is
   guarded, so the except branch at line 80 (the only warning site) is
   unreachable; this function therefore always returns some record, with
   the sentinel standing in for each absent field. -/
def parseArticle (frag : Fragment) : Option Record :=
  some [("title", match frag.titleElem with | some te => te.text.trim | none => "N/A"),
        ("authors", match frag.authorsElem with | some a => a.trim | none => "N/A"),
        ("journal", match frag.journalElem with | some j => j.trim | none => "N/A"),
        ("url", match frag.titleElem with
                | some te =>
                    match te.href with
                    | some h => urljoin base_url h
                    | none => "N/A"
                | none => "N/A")]

/- MedicalInfoScraper.scrape_pubmed (lines 49-83). Returns the record list
   and the number of warnings logged (one per exception caught at line
   80-81). -/
def scrape_pubmed (net : Net) (search_term : String) (max_results : Nat) :
    List Record × Nat :=
  match (get_html_content net (search_url search_term max_results)).1 with
  | none => ([], 0)
  | some soup =>
      soup.fragments.foldl (fun acc frag =>
        match parseArticle frag with
        | some r => (acc.1 ++ [r], acc.2)
        | none => (acc.1, acc.2 + 1))
        (([], 0) : List Record × Nat)

end PM

namespace NCBI

structure DocsumFragment where
  titleElem : Option TitleElem
  authorsElem : Option String
  journalElem : Option String
  dateElem : Option String
  deriving DecidableEq

structure Soup where
  docsumFragments : List DocsumFragment
  abstractContent : Option String
  deriving DecidableEq

abbrev Record := List (String × String)

abbrev Net := String → HttpResult Soup

def base_url : String := "https://www.ncbi.nlm.nih.gov"

/- urllib.parse.quote, modelled as the identity; the concrete terms used in
   the theorems contain no characters that percent-encoding would change. -/
def quote (s : String) : String := s

def search_url (search_term : String) (max_results : Nat) : String :=
  base_url ++ "/pubmed/?term=" ++ quote search_term ++ "&size=" ++ toString max_results

/- NCBIScraper._get_html_content (lines 30-48): requests.get with
   timeout=10 and raise_for_status; RequestException caught, None
   returned. -/
def get_html_content (net : Net) (url : String) : Option Soup × List FetchCall :=
  (match net url with
   | .response status body => if status < 400 then some body else none
   | .transportError => none,
   [⟨url, none, some 10⟩])

/- NCBIScraper._get_article_abstract (lines 111-133): the sentinel on fetch
   failure or when no abstract-content element exists, else the stripped
   abstract text. -/
def get_article_abstract (net : Net) (article_url : String) :
    String × List FetchCall :=
  let r := get_html_content net article_url
  match r.1 with
  | none => ("N/A", r.2)
  | some soup =>
      match soup.abstractContent with
      | some a => (a.trim, r.2)
      | none => ("N/A", r.2)

/- NCBIScraper.scrape_pubmed (lines 50-109): max_results is only embedded
   in the size query parameter of the search URL; the loop at line 69 runs
   over every docsum-content fragment of the returned page with no local
   truncation. Nothing in the loop body raises (the href access at line 88
   is guarded), so every fragment produces a record; each iteration also
   performs the abstract detail fetch of line 91. -/
def scrape_pubmed (net : Net) (search_term : String) (max_results : Nat) :
    List Record × List FetchCall :=
  let r := get_html_content net (search_url search_term max_results)
  match r.1 with
  | none => ([], r.2)
  | some soup =>
      soup.docsumFragments.foldl (fun acc frag =>
        let title := match frag.titleElem with | some te => te.text.trim | none => "N/A"
        let authors := match frag.authorsElem with | some a => a.trim | none => "N/A"
        let journal := match frag.journalElem with | some j => j.trim | none => "N/A"
        let pub_date := match frag.dateElem with | some d => d.trim | none => "N/A"
        let article_url := match frag.titleElem with
          | some te =>
              match te.href with
              | some h => urljoin base_url h
              | none => "N/A"
          | none => "N/A"
        let ab := get_article_abstract net article_url
        (acc.1 ++ [[("title", title), ("authors", authors), ("journal", journal),
                    ("publication_date", pub_date), ("url", article_url),
                    ("abstract", ab.1)]],
         acc.2 ++ ab.2))
        (([], r.2) : List Record × List FetchCall)

end NCBI

/- Concrete environments used by the closed instance theorems below. -/

def soupEmptyCT : CT.Soup := ⟨[], fun _ => none, []⟩

def netTransportCT : CT.Net := fun _ _ => HttpResult.transportError

def net404CT : CT.Net := fun _ _ => HttpResult.response 404 soupEmptyCT

def net200CT : CT.Net := fun _ _ => HttpResult.response 200 soupEmptyCT

def soupRowB : CT.Soup := ⟨[⟨some ⟨"T", some "/ct2/show/NCT1"⟩⟩], fun _ => none, []⟩

def netAB : CT.Net := fun _ params =>
  if params = some (CT.searchParams "B" none) then HttpResult.response 200 soupRowB
  else HttpResult.transportError

def cdcPageMissingDesc : CDC.Soup := ⟨[⟨some "Flu", none⟩]⟩

def cdcNetMissingDesc : CDC.Net := fun _ => HttpResult.response 200 cdcPageMissingDesc

def cdcPageFlu : CDC.Soup := ⟨[⟨some "Flu", some "High fever"⟩]⟩

def cdcNet404 : CDC.Net := fun _ => HttpResult.response 404 cdcPageFlu

def cdcNetTransport : CDC.Net := fun _ => HttpResult.transportError

def cdcDynElems : CDC.DynEnv := CDC.DynEnv.elements [⟨some "Measles", some "Viral disease"⟩]

def ncbiSoupTwo : NCBI.Soup := ⟨[⟨none, none, none, none⟩, ⟨none, none, none, none⟩], none⟩

def ncbiNetTwo : NCBI.Net := fun url =>
  if url = NCBI.search_url "x" 1 then HttpResult.response 200 ncbiSoupTwo
  else HttpResult.transportError

def pmSoupThree : PM.Soup :=
  ⟨[⟨some ⟨"T1", some "/a1"⟩, some "Au1", some "J1"⟩,
    ⟨some ⟨"T2", some "/a2"⟩, none, some "J2"⟩,
    ⟨some ⟨"T3", some "/a3"⟩, some "Au3", some "J3"⟩]⟩

def pmNetThree : PM.Net := fun url =>
  if url = PM.search_url "t" 50 then HttpResult.response 200 pmSoupThree
  else HttpResult.transportError

/-- C6: detail resolution is a no-op on the sentinel detail link. For every
network, scraping trial details for the sentinel URL performs no fetch and
yields the empty detail record, so merging it into any parent record
returns that record unchanged. -/
theorem detail_resolution_noop_on_sentinel (net : CT.Net) (r : CT.Record) :
    CT.scrape_trial_details net "N/A" = ([], []) ∧
    CT.dictMerge r (CT.scrape_trial_details net "N/A").1 = r :=
  ⟨rfl, rfl⟩

/-- C1 counterexample: a CDC page with exactly one disease fragment whose
name is present but whose description is missing yields no record at all in
the static path of CDCScraper.scrape_disease_data: the record is dropped,
the default sentinel is not substituted, refuting the claim that a failure
to extract one field never causes the whole record to be dropped. -/
theorem cdc_static_drops_record_on_missing_field :
    cdcPageMissingDesc.diseaseSections.length = 1 ∧
    cdcPageMissingDesc.diseaseSections.map (fun s => s.h3) = [some "Flu"] ∧
    (CDC.scrape_disease_data CDC.DynEnv.fail cdcNetMissingDesc).1 = [] := by
  decide

/-- C1 (amended): every record that CDCScraper.scrape_disease_data does
emit contains exactly the two schema fields name and description, so the
field count is invariant across emitted records; however a fragment whose
name or description is missing contributes no record at all (the record is
dropped rather than emitted with the default sentinel). -/
theorem cdc_emitted_records_have_schema_fields (dyn : CDC.DynEnv) (net : CDC.Net)
    (r : CDC.Record) (hr : r ∈ (CDC.scrape_disease_data dyn net).1) :
    r.map Prod.fst = ["name", "description"] := by
  unfold CDC.scrape_disease_data at hr
  by_cases h : (CDC.selenium_advanced_scrape dyn).isEmpty
  · simp only [h, if_true] at hr
    unfold CDC.scrape_static at hr
    revert hr
    cases hnet : net CDC.diseases_url with
    | transportError => intro hr; simp at hr
    | response s soup =>
        intro hr
        simp only at hr
        rw [List.mem_filterMap] at hr
        obtain ⟨sec, hsec, hf⟩ := hr
        cases h3 : sec.h3 <;> cases hp : sec.p <;> simp [h3, hp] at hf
        rw [← hf]
        rfl
  · simp only [h, if_false, Bool.false_eq_true] at hr
    cases dyn with
    | fail => simp [CDC.selenium_advanced_scrape] at hr
    | elements es =>
        simp only [CDC.selenium_advanced_scrape] at hr
        rw [List.mem_filterMap] at hr
        obtain ⟨e, he, hf⟩ := hr
        cases h3 : e.h3 <;> cases hp : e.p <;> simp [h3, hp] at hf
        rw [← hf]
        rfl

/-- C1 witness: on a dynamic page with one complete fragment, the emitted
record has exactly the two schema field names. -/
theorem cdc_emitted_records_have_schema_fields_witness :
    ([("name", "Measles"), ("description", "Viral disease")] : CDC.Record).map Prod.fst
      = ["name", "description"] :=
  cdc_emitted_records_have_schema_fields cdcDynElems cdcNetTransport _ (by decide)

/-- C2 (amended): the dedicated fetch helper of the clinical-trials scraper
returns the error value None, and never throws, on transport failure and on
any HTTP status of 400 or above; on statuses below 400 it returns the page.
The inline fetch of the CDC fallback, by contrast, performs no status check
at all. -/
theorem ct_fetch_returns_none_on_failure (net : CT.Net) (url : String)
    (params : Option Params) (s : Nat) (body : CT.Soup) :
    (net url params = HttpResult.transportError →
       (CT.get_html_content net url params).1 = none) ∧
    (net url params = HttpResult.response s body → 400 ≤ s →
       (CT.get_html_content net url params).1 = none) ∧
    (net url params = HttpResult.response s body → s < 400 →
       (CT.get_html_content net url params).1 = some body) := by
  refine ⟨fun h => ?_, fun h hs => ?_, fun h hs => ?_⟩ <;>
    simp only [CT.get_html_content, h]
  · rw [if_neg (by omega)]
  · rw [if_pos hs]

/-- C2 witness: the helper returns None at a transport failure and at a 404
response, and the page at a 200 response. -/
theorem ct_fetch_returns_none_on_failure_witness :
    (CT.get_html_content netTransportCT "u" none).1 = none ∧
    (CT.get_html_content net404CT "u" none).1 = none ∧
    (CT.get_html_content net200CT "u" none).1 = some soupEmptyCT :=
  ⟨(ct_fetch_returns_none_on_failure netTransportCT "u" none 0 soupEmptyCT).1 rfl,
   (ct_fetch_returns_none_on_failure net404CT "u" none 404 soupEmptyCT).2.1 rfl (by omega),
   (ct_fetch_returns_none_on_failure net200CT "u" none 200 soupEmptyCT).2.2 rfl (by omega)⟩

/-- C2 counterexample: the CDC fallback fetch (requests.get at lines 42-43
of the CDC scraper, with no raise_for_status) does not return an error
value on a non-2xx status: a 404 response body is parsed as a page and its
records are emitted, refuting the claim for that fetch site. -/
theorem cdc_static_parses_non2xx_as_page :
    400 ≤ 404 ∧
    (CDC.scrape_static cdcNet404).1 =
      [[("name", "Flu".trim), ("description", "High fever".trim)]] :=
  ⟨by omega, rfl⟩

/-- C5: the CDC scraper tries the dynamic (selenium) fetch first; when it
yields a non-empty record set that result is returned and the static path
is never consulted (the result is independent of the static network);
when the dynamic fetch fails or yields an empty record set, the result is
exactly that of the static fallback. -/
theorem cdc_dynamic_first_with_static_fallback (dyn : CDC.DynEnv) (net net2 : CDC.Net) :
    (CDC.selenium_advanced_scrape dyn ≠ [] →
       CDC.scrape_disease_data dyn net = (CDC.selenium_advanced_scrape dyn, []) ∧
       CDC.scrape_disease_data dyn net = CDC.scrape_disease_data dyn net2) ∧
    (CDC.selenium_advanced_scrape dyn = [] →
       CDC.scrape_disease_data dyn net = CDC.scrape_static net) := by
  constructor
  · intro h
    have hne : (CDC.selenium_advanced_scrape dyn).isEmpty = false := by
      cases hs : CDC.selenium_advanced_scrape dyn
      · exact absurd hs h
      · rfl
    constructor <;> simp [CDC.scrape_disease_data, hne]
  · intro h
    simp [CDC.scrape_disease_data, h]

/-- C5 witness: with a rendered page holding one complete element, the
dynamic result is returned unchanged whatever the static network; with a
failed dynamic session, the result is the static fallback result. -/
theorem cdc_dynamic_first_with_static_fallback_witness :
    (CDC.scrape_disease_data cdcDynElems cdcNetTransport =
       ([[("name", "Measles"), ("description", "Viral disease")]], []) ∧
     CDC.scrape_disease_data cdcDynElems cdcNetTransport =
       CDC.scrape_disease_data cdcDynElems cdcNet404) ∧
    CDC.scrape_disease_data CDC.DynEnv.fail cdcNet404 = CDC.scrape_static cdcNet404 := by
  refine ⟨⟨?_, ?_⟩, ?_⟩
  · exact ((cdc_dynamic_first_with_static_fallback cdcDynElems cdcNetTransport cdcNet404).1
      (by decide)).1
  · exact ((cdc_dynamic_first_with_static_fallback cdcDynElems cdcNetTransport cdcNet404).1
      (by decide)).2
  · exact (cdc_dynamic_first_with_static_fallback CDC.DynEnv.fail cdcNet404 cdcNet404).2 rfl

theorem ct_processRow_length (net : CT.Net) (acc : List CT.Record × List FetchCall)
    (row : CT.TrialRow) :
    ((CT.processRow net acc row).1).length ≤ acc.1.length + 1 := by
  cases hrow : row.titleElem with
  | none => simp [CT.processRow, hrow]
  | some te =>
      cases hhref : te.href with
      | none => simp [CT.processRow, hrow, hhref]
      | some h => simp [CT.processRow, hrow, hhref]

theorem ct_foldl_length (net : CT.Net) (rows : List CT.TrialRow) :
    ∀ acc : List CT.Record × List FetchCall,
      ((rows.foldl (CT.processRow net) acc).1).length ≤ acc.1.length + rows.length := by
  induction rows with
  | nil => intro acc; simp
  | cons r rs ih =>
      intro acc
      have h1 := ct_processRow_length net acc r
      have h2 := ih (CT.processRow net acc r)
      simp only [List.foldl_cons, List.length_cons]
      omega

/-- C3 (amended): the clinical-trials scraper slices the extracted rows to
max_results before any detail-page resolution, so it yields at most
max_results records per search term; the NCBI scraper, by contrast, only
forwards max_results as the size query parameter and performs no local
truncation. -/
theorem ct_search_yields_at_most_max_results (net : CT.Net) (condition : String)
    (k : Nat) (rs : Option String) :
    ((CT.search_clinical_trials net condition k rs).1).length ≤ k := by
  unfold CT.search_clinical_trials
  cases hf : (CT.get_html_content net CT.search_url (some (CT.searchParams condition rs))).1 with
  | none => simp [hf]
  | some soup =>
      simp only [hf]
      have h := ct_foldl_length net (soup.trialRows.take k)
        ([], (CT.get_html_content net CT.search_url (some (CT.searchParams condition rs))).2)
      simp only [List.length_nil, Nat.zero_add] at h
      exact le_trans h (by simp [List.length_take])

/-- C3 counterexample: the NCBI scraper asked for at most 1 result on a
page whose returned search content holds 2 docsum fragments emits 2
records, refuting the claim that the run yields at most k records per
term. -/
theorem ncbi_no_local_truncation :
    ((NCBI.scrape_pubmed ncbiNetTwo "x" 1).1).length = 2 ∧ 1 < 2 := by
  decide

/-- C4: a term whose search-page fetch fails contributes zero records and
does not abort the run: running the clinical-trials scraper over terms
A then B, where the fetch of the search page for A fails, aggregates
exactly the records of B alone. -/
theorem failing_term_contributes_nothing (net : CT.Net) (A B : String) (k : Nat)
    (rs : Option String)
    (hA : (CT.get_html_content net CT.search_url (some (CT.searchParams A rs))).1 = none) :
    (CT.search_clinical_trials net A k rs).1 = [] ∧
    (CT.run_comprehensive_scrape net [A, B] k rs).1 =
      (CT.search_clinical_trials net B k rs).1 := by
  have hsA : (CT.search_clinical_trials net A k rs).1 = [] := by
    simp [CT.search_clinical_trials, hA]
  refine ⟨hsA, ?_⟩
  simp [CT.run_comprehensive_scrape, hsA]

/-- C4 witness: a concrete network failing the search page of term A and
serving one trial row for term B. -/
theorem failing_term_contributes_nothing_witness :
    (CT.search_clinical_trials netAB "A" 5 none).1 = [] ∧
    (CT.run_comprehensive_scrape netAB ["A", "B"] 5 none).1 =
      (CT.search_clinical_trials netAB "B" 5 none).1 :=
  failing_term_contributes_nothing netAB "A" "B" 5 none rfl

theorem lookup_map_keyReplace (k k2 : String) (v : CT.Value)
    (hk : (k == k2) = false) :
    ∀ m : CT.Record,
      (m.map (fun p => if p.1 == k2 then (k2, v) else p)).lookup k = m.lookup k := by
  intro m
  induction m with
  | nil => rfl
  | cons p t ih =>
      obtain ⟨a, b⟩ := p
      simp only [List.map_cons]
      by_cases h : (a == k2) = true
      · have ha : a = k2 := by simpa using h
        subst ha
        rw [if_pos h]
        show (match k == a with
              | true => some v
              | false => (t.map (fun p => if p.1 == a then (a, v) else p)).lookup k) =
             (match k == a with
              | true => some b
              | false => t.lookup k)
        rw [hk]
        exact ih
      · rw [if_neg h]
        show (match k == a with
              | true => some b
              | false => (t.map (fun p => if p.1 == k2 then (k2, v) else p)).lookup k) =
             (match k == a with
              | true => some b
              | false => t.lookup k)
        cases k == a
        · exact ih
        · rfl

theorem lookup_append_single (k k2 : String) (v : CT.Value)
    (hk : (k == k2) = false) :
    ∀ m : CT.Record, (m ++ [(k2, v)]).lookup k = m.lookup k := by
  intro m
  induction m with
  | nil =>
      show (match k == k2 with
            | true => some v
            | false => List.lookup k ([] : CT.Record)) = none
      simp only [hk]
      rfl
  | cons p t ih =>
      obtain ⟨a, b⟩ := p
      show (match k == a with
            | true => some b
            | false => (t ++ [(k2, v)]).lookup k) =
           (match k == a with
            | true => some b
            | false => t.lookup k)
      cases k == a
      · exact ih
      · rfl

theorem lookup_dictInsert_ne (k k2 : String) (v : CT.Value)
    (hk : (k == k2) = false) (m : CT.Record) :
    (CT.dictInsert m k2 v).lookup k = m.lookup k := by
  unfold CT.dictInsert
  split
  · exact lookup_map_keyReplace k k2 v hk m
  · exact lookup_append_single k k2 v hk m

theorem lookup_dictMerge_ne (k : String) :
    ∀ (b a : CT.Record), (b.all (fun p => !(k == p.1))) = true →
      (CT.dictMerge a b).lookup k = a.lookup k := by
  intro b
  induction b with
  | nil => intro a h; rfl
  | cons p t ih =>
      intro a h
      simp only [List.all_cons, Bool.and_eq_true] at h
      obtain ⟨h1, h2⟩ := h
      have hk : (k == p.1) = false := by simpa using h1
      show (CT.dictMerge (CT.dictInsert a p.1 p.2) t).lookup k = _
      rw [ih (CT.dictInsert a p.1 p.2) h2]
      exact lookup_dictInsert_ne k p.1 p.2 hk a

/-- C7: detail resolution never reduces the field count of the parent
record: merging the detail record into the parent (the dict unpacking at
lines 101-105) keeps the title and url fields of the parent with their
original values, whatever the network does; and when the detail fetch hits
a transport failure the merged record is exactly the parent unchanged. -/
theorem detail_failure_preserves_parent_fields (net : CT.Net) (url t u : String) :
    ((CT.dictMerge [("title", CT.Value.str t), ("url", CT.Value.str u)]
        (CT.scrape_trial_details net url).1).lookup "title" = some (CT.Value.str t) ∧
     (CT.dictMerge [("title", CT.Value.str t), ("url", CT.Value.str u)]
        (CT.scrape_trial_details net url).1).lookup "url" = some (CT.Value.str u)) ∧
    (net url none = HttpResult.transportError →
       CT.dictMerge [("title", CT.Value.str t), ("url", CT.Value.str u)]
         (CT.scrape_trial_details net url).1 =
         [("title", CT.Value.str t), ("url", CT.Value.str u)]) := by
  by_cases hu : url = "N/A"
  · subst hu
    exact ⟨⟨rfl, rfl⟩, fun _ => rfl⟩
  · simp only [CT.scrape_trial_details, CT.get_html_content, if_neg hu]
    cases hnet : net url none with
    | transportError => exact ⟨⟨rfl, rfl⟩, fun _ => rfl⟩
    | response s body =>
        by_cases hs : s < 400
        · simp only [if_pos hs]
          refine ⟨⟨?_, ?_⟩, fun h => HttpResult.noConfusion h⟩
          · exact (lookup_dictMerge_ne "title" _ _ (by rfl)).trans rfl
          · exact (lookup_dictMerge_ne "url" _ _ (by rfl)).trans rfl
        · simp only [if_neg hs]
          exact ⟨⟨rfl, rfl⟩, fun h => HttpResult.noConfusion h⟩

/-- C7 witness: with a network that always fails at the transport level,
resolving a concrete parent record returns it unchanged. -/
theorem detail_failure_preserves_parent_fields_witness :
    CT.dictMerge [("title", CT.Value.str "T"), ("url", CT.Value.str "U")]
        (CT.scrape_trial_details netTransportCT "https://x").1 =
      [("title", CT.Value.str "T"), ("url", CT.Value.str "U")] :=
  (detail_failure_preserves_parent_fields netTransportCT "https://x" "T" "U").2 rfl

theorem ct_details_trace_timeout (net : CT.Net) (url : String) :
    ∀ c ∈ (CT.scrape_trial_details net url).2, c.timeout = some 10 := by
  intro c hc
  by_cases hu : url = "N/A"
  · subst hu
    simp [CT.scrape_trial_details] at hc
  · simp only [CT.scrape_trial_details, CT.get_html_content, if_neg hu] at hc
    simp only [List.mem_singleton] at hc
    rw [hc]

theorem ct_processRow_trace (net : CT.Net) (acc : List CT.Record × List FetchCall)
    (row : CT.TrialRow) (hacc : ∀ c ∈ acc.2, c.timeout = some 10) :
    ∀ c ∈ (CT.processRow net acc row).2, c.timeout = some 10 := by
  intro c hc
  cases hrow : row.titleElem with
  | none =>
      simp only [CT.processRow, hrow] at hc
      rcases List.mem_append.1 hc with h | h
      · exact hacc c h
      · exact ct_details_trace_timeout net "N/A" c h
  | some te =>
      cases hhref : te.href with
      | none =>
          simp only [CT.processRow, hrow, hhref] at hc
          exact hacc c hc
      | some hrf =>
          simp only [CT.processRow, hrow, hhref] at hc
          rcases List.mem_append.1 hc with h | h
          · exact hacc c h
          · exact ct_details_trace_timeout net (urljoin CT.base_url hrf) c h

theorem ct_foldl_trace (net : CT.Net) (rows : List CT.TrialRow) :
    ∀ acc : List CT.Record × List FetchCall,
      (∀ c ∈ acc.2, c.timeout = some 10) →
      ∀ c ∈ ((rows.foldl (CT.processRow net) acc).2), c.timeout = some 10 := by
  induction rows with
  | nil => intro acc hacc c hc; exact hacc c hc
  | cons r rs ih =>
      intro acc hacc c hc
      simp only [List.foldl_cons] at hc
      exact ih (CT.processRow net acc r) (ct_processRow_trace net acc r hacc) c hc

theorem ct_search_trace (net : CT.Net) (condition : String) (k : Nat)
    (rs : Option String) :
    ∀ c ∈ (CT.search_clinical_trials net condition k rs).2, c.timeout = some 10 := by
  intro c hc
  have hfetch2 : ∀ c2 ∈ (CT.get_html_content net CT.search_url
      (some (CT.searchParams condition rs))).2, c2.timeout = some 10 := by
    intro c2 hc2
    simp only [CT.get_html_content, List.mem_singleton] at hc2
    rw [hc2]
  revert hc
  simp only [CT.search_clinical_trials]
  cases hf : (CT.get_html_content net CT.search_url (some (CT.searchParams condition rs))).1 with
  | none => intro hc; exact hfetch2 c hc
  | some soup =>
      intro hc
      exact ct_foldl_trace net (soup.trialRows.take k) _ hfetch2 c hc

/-- C8 (amended): every fetch performed anywhere in the clinical-trials
pipeline (the search-page fetch and every detail-page fetch of a full run)
goes through the helper that passes a 10-unit timeout; the inline
requests.get of the CDC fallback, however, passes no timeout at all. -/
theorem ct_every_fetch_carries_timeout (net : CT.Net) (conditions : List String)
    (k : Nat) (rs : Option String) :
    ∀ c ∈ (CT.run_comprehensive_scrape net conditions k rs).2, c.timeout = some 10 := by
  have aux : ∀ (cs : List String) (acc : List CT.Record × List FetchCall),
      (∀ c ∈ acc.2, c.timeout = some 10) →
      ∀ c ∈ (cs.foldl (fun acc cond =>
          let res := CT.search_clinical_trials net cond k rs
          (acc.1 ++ res.1, acc.2 ++ res.2)) acc).2, c.timeout = some 10 := by
    intro cs
    induction cs with
    | nil => intro acc hacc c hc; exact hacc c hc
    | cons cd cds ih =>
        intro acc hacc c hc
        simp only [List.foldl_cons] at hc
        refine ih _ ?_ c hc
        intro c2 hc2
        rcases List.mem_append.1 hc2 with h | h
        · exact hacc c2 h
        · exact ct_search_trace net cd k rs c2 h
  intro c hc
  exact aux conditions ([], []) (by intro c2 hc2; simp at hc2) c hc

/-- C8 witness: in a concrete one-term run, the recorded search fetch call
carries the 10-unit timeout. -/
theorem ct_every_fetch_carries_timeout_witness :
    (⟨CT.search_url, some (CT.searchParams "a" none), some 10⟩ : FetchCall).timeout
      = some 10 :=
  ct_every_fetch_carries_timeout netTransportCT ["a"] 1 none _ (by decide)

/-- C8 counterexample: the CDC fallback performs an outbound fetch whose
recorded call carries no timeout argument (requests.get at lines 42-43 of
the CDC scraper has no timeout), so that fetch can block indefinitely,
refuting the claim that every outbound fetch carries a timeout. -/
theorem cdc_static_fetch_has_no_timeout :
    (CDC.scrape_disease_data CDC.DynEnv.fail cdcNetTransport).2 =
      [⟨CDC.diseases_url, none, none⟩] ∧
    (⟨CDC.diseases_url, none, none⟩ : FetchCall).timeout = none := by
  decide

/-- C9 (amended): when a declared field is absent from a fragment, the
pubmed extractor stores the default sentinel in the record silently: on a
page of 3 fragments where fragment 2 is missing its authors field, 3
records are returned, record 2 holds the sentinel for authors, and zero
warnings are logged (the only warning site is the per-fragment exception
handler, and no operation in the fragment body raises). -/
theorem pm_defaults_stored_silently (net : PM.Net) (term : String) (k : Nat)
    (soup : PM.Soup) (f1 f2 f3 : PM.Fragment)
    (hfetch : (PM.get_html_content net (PM.search_url term k)).1 = some soup)
    (hfrags : soup.fragments = [f1, f2, f3])
    (hmiss : f2.authorsElem = none) :
    (PM.scrape_pubmed net term k).1.length = 3 ∧
    ((PM.scrape_pubmed net term k).1[1]?.bind (fun r => r.lookup "authors"))
      = some "N/A" ∧
    (PM.scrape_pubmed net term k).2 = 0 := by
  simp only [PM.scrape_pubmed, hfetch, hfrags]
  simp [PM.parseArticle, hmiss, List.lookup]

/-- C9 witness: a concrete 3-fragment page where the middle fragment lacks
its authors element. -/
theorem pm_defaults_stored_silently_witness :
    (PM.scrape_pubmed pmNetThree "t" 50).1.length = 3 ∧
    ((PM.scrape_pubmed pmNetThree "t" 50).1[1]?.bind (fun r => r.lookup "authors"))
      = some "N/A" ∧
    (PM.scrape_pubmed pmNetThree "t" 50).2 = 0 :=
  pm_defaults_stored_silently pmNetThree "t" 50 pmSoupThree
    ⟨some ⟨"T1", some "/a1"⟩, some "Au1", some "J1"⟩
    ⟨some ⟨"T2", some "/a2"⟩, none, some "J2"⟩
    ⟨some ⟨"T3", some "/a3"⟩, some "Au3", some "J3"⟩
    rfl rfl rfl

/-- C9 counterexample: in the 3-fragment scenario with the middle fragment
missing its authors field, the extractor does return 3 records with the
sentinel in record 2, but the number of warnings logged is 0, not 1,
refuting the claim that a warning is logged (exactly once) when a field
selector finds nothing. -/
theorem pm_missing_field_logs_no_warning :
    (PM.scrape_pubmed pmNetThree "t" 50).1.length = 3 ∧
    ((PM.scrape_pubmed pmNetThree "t" 50).1[1]?.bind (fun r => r.lookup "authors"))
      = some "N/A" ∧
    ¬((PM.scrape_pubmed pmNetThree "t" 50).2 = 1) := by
  decide

/-- C10: the single-selector text extraction helper is total by
construction: it returns the trimmed element text when the selector
matches and the sentinel otherwise; consequently, whenever the detail-page
fetch succeeds, every one of the ten flat detail fields is present in the
detail record as a string value. -/
theorem extract_text_total_and_details_complete (net : CT.Net) (url : String)
    (soup : CT.Soup) (hu : url ≠ "N/A")
    (hfetch : (CT.get_html_content net url none).1 = some soup) :
    (∀ f ∈ CT.tenFlatFields, ∃ s : String,
        ((CT.scrape_trial_details net url).1).lookup f = some (CT.Value.str s)) ∧
    (∀ sel t, soup.selectOne sel = some t → CT.extract_text soup sel = t.trim) ∧
    (∀ sel, soup.selectOne sel = none → CT.extract_text soup sel = "N/A") := by
  refine ⟨?_, ?_, ?_⟩
  · intro f hf
    simp only [CT.scrape_trial_details, if_neg hu, hfetch]
    fin_cases hf
    · exact ⟨_, rfl⟩
    · exact ⟨_, rfl⟩
    · exact ⟨_, rfl⟩
    · exact ⟨_, rfl⟩
    · exact ⟨_, rfl⟩
    · exact ⟨_, rfl⟩
    · exact ⟨_, rfl⟩
    · exact ⟨_, rfl⟩
    · exact ⟨_, rfl⟩
    · exact ⟨_, rfl⟩
  · intro sel t h
    simp [CT.extract_text, h]
  · intro sel h
    simp [CT.extract_text, h]

/-- C10 witness: with a successful fetch of a detail page on which no
selector matches, the nct_number field is still present as a string, and
the extraction helper returns the sentinel for an unmatched selector. -/
theorem extract_text_total_and_details_complete_witness :
    (∃ s : String, ((CT.scrape_trial_details net200CT "https://x").1).lookup "nct_number"
        = some (CT.Value.str s)) ∧
    CT.extract_text soupEmptyCT "div.foo" = "N/A" :=
  ⟨(extract_text_total_and_details_complete net200CT "https://x" soupEmptyCT
      (by decide) rfl).1 "nct_number" (by decide),
   (extract_text_total_and_details_complete net200CT "https://x" soupEmptyCT
      (by decide) rfl).2.2 "div.foo" rfl⟩
